import Mathlib

/-!
Verification development for `python-apt-mirror-updater`.

This file gives a shallow embedding of the mirror-probing logic of
`apt_mirror_updater/tests.py` (`is_mirror_url`, `is_debian_mirror`,
`is_ubuntu_mirror`) and of the elementary OS backend
(`apt_mirror_updater/backends/elementary.py`), and proves properties of
these definitions.

Modelling conventions:
* The external URL fetcher (`apt_mirror_updater.http.fetch_url`) is a
  parameter `fetch_url : String -> FetchResult`, where `FetchResult`
  distinguishes a successful response body, a `TimeoutException` and any
  other exception, mirroring the `try/except` structure of the Python code.
* The per-pass probe cache (`self.mirror_cache`, a Python dict that is only
  ever populated when a key is absent) is an explicit association list
  passed in and returned; entries are prepended and lookup takes the first
  match, which coincides with dict semantics because a key is only inserted
  when absent.
* Each probe invocation also returns the list of resource URLs it actually
  fetched, so "performs no network fetch" is expressible.
-/

/-- Boolean test that `p` is an initial segment of `s` (character lists). -/
def strStarts : List Char → List Char → Bool
  | [], _ => true
  | _ :: _, [] => false
  | a :: p, b :: s => a = b && strStarts p s

/-- Boolean test that `needle` occurs contiguously inside `haystack`;
this is the translation of the Python `expected_content in response`
containment test on byte strings. -/
def containsSeq (needle : List Char) : List Char → Bool
  | [] => needle.isEmpty
  | c :: rest => strStarts needle (c :: rest) || containsSeq needle rest

/-- Translation of `base_url.startswith(('http://', 'https://'))`. -/
def isHttpUrl (url : String) : Bool :=
  strStarts "http://".data url.data || strStarts "https://".data url.data

/-- Modelled from the spec: `normalize_mirror_url` lives in
`apt_mirror_updater/__init__.py`, which is not under `src/`.  The spec
describes `mirror_url` as a "normalized absolute URL, trailing slash rules
defined by normalization", so normalization strips trailing slashes. -/
def normalize_mirror_url (url : String) : String :=
  ⟨(url.data.reverse.dropWhile (fun c => c == '/')).reverse⟩

/-- Outcome of one external fetch (`apt_mirror_updater.http.fetch_url`):
a successful response body, a `stopit.TimeoutException`, or any other
exception. -/
inductive FetchResult where
  | success (body : String)
  | timeout
  | failure
deriving DecidableEq

/-- Key of the probe cache: `(base_url, stable_resource, expected_content)`. -/
abbrev CacheKey := String × String × String

/-- The per-pass probe cache `self.mirror_cache`. -/
abbrev MirrorCache := List (CacheKey × Bool)

/-- First-match lookup in the probe cache; models both the
`cache_key not in self.mirror_cache` test and the read
`self.mirror_cache[cache_key]`. -/
def cacheLookup : MirrorCache → CacheKey → Option Bool
  | [], _ => none
  | (k, v) :: rest, key => if k = key then some v else cacheLookup rest key

/-- Result of one `is_mirror_url` invocation: the returned boolean, the
probe cache after the call, and the resource URLs fetched during the call. -/
structure ProbeOutcome where
  verdict : Bool
  cache : MirrorCache
  fetched : List String
deriving DecidableEq

/-- Translation of `AptMirrorUpdaterTestCase.is_mirror_url`
(`tests.py` lines 69-95): normalize the base URL; reject non-http(s) URLs
outright; otherwise consult the cache and, on a miss, fetch
`base_url + stable_resource` and record `True` when the expected content
occurs in the response, `True` on a timeout, and `False` on a missing
marker or any other exception. -/
def is_mirror_url (fetch_url : String → FetchResult) (cache : MirrorCache)
    (base_url stable_resource expected_content : String) : ProbeOutcome :=
  let base := normalize_mirror_url base_url
  if isHttpUrl base then
    match cacheLookup cache (base, stable_resource, expected_content) with
    | some cached => ⟨cached, cache, []⟩
    | none =>
      let resource_url := base ++ stable_resource
      match fetch_url resource_url with
      | .success response =>
          let result := containsSeq expected_content.data response.data
          ⟨result, ((base, stable_resource, expected_content), result) :: cache,
            [resource_url]⟩
      | .timeout =>
          ⟨true, ((base, stable_resource, expected_content), true) :: cache,
            [resource_url]⟩
      | .failure =>
          ⟨false, ((base, stable_resource, expected_content), false) :: cache,
            [resource_url]⟩
  else ⟨false, cache, []⟩

/-- Translation of `is_debian_mirror` (`tests.py` lines 65-67). -/
def is_debian_mirror (fetch_url : String → FetchResult) (cache : MirrorCache)
    (url : String) : ProbeOutcome :=
  is_mirror_url fetch_url cache url "/dists/stable/Release.gpg"
    "-----BEGIN PGP SIGNATURE-----"

/-- The mirror URL special-cased in `is_ubuntu_mirror` (`tests.py` line 106). -/
def UTAH_MIRROR_URL : String := "http://ubuntu.cs.utah.edu/ubuntu"

/-- Stable resource of the primary Ubuntu probe (`tests.py` line 114). -/
def UBUNTU_PRIMARY_RESOURCE : String := "/project/ubuntu-archive-keyring.gpg"

/-- Expected content of the primary Ubuntu probe (`tests.py` line 114). -/
def UBUNTU_PRIMARY_MARKER : String := "ftpmaster@ubuntu.com"

/-- Stable resource of the fallback Ubuntu probe (`tests.py` line 120). -/
def UBUNTU_FALLBACK_RESOURCE : String := "/dists/devel/Release.gpg"

/-- Expected content of the fallback Ubuntu probe (`tests.py` line 120). -/
def UBUNTU_FALLBACK_MARKER : String := "-----BEGIN PGP SIGNATURE-----"

/-- Translation of `is_ubuntu_mirror` (`tests.py` lines 97-120): the Utah
mirror URL is special-cased to `True`; otherwise the primary keyring probe
runs first and, only when it fails, the generic fallback probe decides. -/
def is_ubuntu_mirror (fetch_url : String → FetchResult) (cache : MirrorCache)
    (url : String) : ProbeOutcome :=
  if url = UTAH_MIRROR_URL then ⟨true, cache, []⟩
  else
    let r1 := is_mirror_url fetch_url cache url UBUNTU_PRIMARY_RESOURCE
      UBUNTU_PRIMARY_MARKER
    if r1.verdict then r1
    else
      let r2 := is_mirror_url fetch_url r1.cache url UBUNTU_FALLBACK_RESOURCE
        UBUNTU_FALLBACK_MARKER
      ⟨r2.verdict, r2.cache, r1.fetched ++ r2.fetched⟩

/-- A discovered mirror candidate.  Modelled from the spec: the engine
requirement is only that every candidate carries at minimum a normalized
`mirror_url`. -/
structure CandidateMirror where
  mirror_url : String
deriving DecidableEq

/-- Split a character list at newline characters. -/
def splitLines : List Char → List (List Char)
  | [] => [[]]
  | c :: rest =>
      let ls := splitLines rest
      if c == '\n' then [] :: ls
      else
        match ls with
        | [] => [[c]]
        | l :: ls => (c :: l) :: ls

namespace ubuntu

/-- Modelled from the spec: the Ubuntu backend
(`apt_mirror_updater/backends/ubuntu.py`, not under `src/`) queries a
well-known mirror-list resource; this constant names that resource. -/
def MIRRORS_URL : String := "http://mirrors.ubuntu.com/mirrors.txt"

/-- Modelled from the spec: the Ubuntu backend's static constant for the
"old releases" archive URL, a fixed infrastructure endpoint not subject to
discovery. -/
def OLD_RELEASES_URL : String := "http://old-releases.ubuntu.com/ubuntu/"

/-- Modelled from the spec: the Ubuntu backend's static constant for the
"security" archive URL, a fixed infrastructure endpoint not subject to
discovery. -/
def SECURITY_URL : String := "http://security.ubuntu.com/ubuntu"

/-- Modelled from the spec: parsing of the mirror listing is
backend-specific; a malformed entry is skipped (not a hard failure) and
every kept candidate carries a normalized `mirror_url`. -/
def parseMirrorList (body : String) : List CandidateMirror :=
  (splitLines body.data).filterMap fun l =>
    let u := normalize_mirror_url ⟨l⟩
    if isHttpUrl u then some ⟨u⟩ else none

/-- Modelled from the spec: `ubuntu.discover_mirrors`
(`apt_mirror_updater/backends/ubuntu.py`, not under `src/`) fetches the
mirror-list resource and parses it into candidates; a total fetch failure
of the mirror-list resource is a hard failure surfaced to the caller. -/
def discover_mirrors (fetch_url : String → FetchResult) :
    Except String (List CandidateMirror) :=
  match fetch_url MIRRORS_URL with
  | .success body => .ok (parseMirrorList body)
  | _ => .error "Failed to discover Ubuntu mirrors!"

/-- Modelled from the spec: `ubuntu.generate_sources_list`
(`apt_mirror_updater/backends/ubuntu.py`, not under `src/`) produces the
text of a package-source configuration file from a chosen mirror and a
release series (format distributor-specific, out of core scope). -/
def generate_sources_list (mirror_url : String) (series : String) : String :=
  "deb " ++ mirror_url ++ " " ++ series ++ " main restricted universe multiverse"

end ubuntu

namespace elementary

/-- Translation of `elementary.py` line 33: alias for
`apt_mirror_updater.backends.ubuntu.OLD_RELEASES_URL`. -/
def OLD_RELEASES_URL : String := ubuntu.OLD_RELEASES_URL

/-- Translation of `elementary.py` line 36: alias for
`apt_mirror_updater.backends.ubuntu.SECURITY_URL`. -/
def SECURITY_URL : String := ubuntu.SECURITY_URL

/-- Translation of `elementary.py` line 39: alias for
`apt_mirror_updater.backends.ubuntu.discover_mirrors`. -/
def discover_mirrors : (String → FetchResult) →
    Except String (List CandidateMirror) :=
  ubuntu.discover_mirrors

/-- Translation of `elementary.py` line 42: alias for
`apt_mirror_updater.backends.ubuntu.generate_sources_list`. -/
def generate_sources_list : String → String → String :=
  ubuntu.generate_sources_list

end elementary

/-- A calendar date, standing in for `datetime.date`. -/
structure Date where
  year : Nat
  month : Nat
  day : Nat
deriving DecidableEq

/-- Modelled from the spec: the `Release` record
(`apt_mirror_updater/releases.py`, not under `src/`) with the attributes
the spec lists — `codename`, `series`, `version` (may be absent),
`created_date`, `distributor_id`, `is_lts`, and the optional
`upstream_distributor_id` / `upstream_series` / `upstream_version`
back-reference. -/
structure Release where
  codename : String
  created_date : Date
  distributor_id : String
  upstream_distributor_id : Option String := none
  upstream_series : Option String := none
  upstream_version : Option ℚ := none
  is_lts : Bool
  series : String
  version : Option ℚ := none

/-- Translation of `KNOWN_RELEASES` (`elementary.py` lines 45-112): the six
known elementary OS releases. -/
def elementary.KNOWN_RELEASES : List Release := [
  { codename := "Jupiter",
    created_date := ⟨2011, 3, 31⟩,
    distributor_id := "elementary",
    upstream_distributor_id := some "ubuntu",
    upstream_series := some "maverick",
    upstream_version := some (10.10 : ℚ),
    is_lts := false,
    series := "jupiter",
    version := some (0.1 : ℚ) },
  { codename := "Luna",
    created_date := ⟨2013, 8, 10⟩,
    distributor_id := "elementary",
    upstream_distributor_id := some "ubuntu",
    upstream_series := some "precise",
    upstream_version := some (12.04 : ℚ),
    is_lts := false,
    series := "luna",
    version := some (0.2 : ℚ) },
  { codename := "Freya",
    created_date := ⟨2015, 4, 11⟩,
    distributor_id := "elementary",
    upstream_distributor_id := some "ubuntu",
    upstream_series := some "trusty",
    upstream_version := some (14.04 : ℚ),
    is_lts := false,
    series := "freya",
    version := some (0.3 : ℚ) },
  { codename := "Loki",
    created_date := ⟨2016, 9, 9⟩,
    distributor_id := "elementary",
    upstream_distributor_id := some "ubuntu",
    upstream_series := some "xenial",
    upstream_version := some (16.04 : ℚ),
    is_lts := false,
    series := "loki",
    version := some (0.4 : ℚ) },
  { codename := "Juno",
    created_date := ⟨2018, 10, 16⟩,
    distributor_id := "elementary",
    upstream_distributor_id := some "ubuntu",
    upstream_series := some "bionic",
    upstream_version := some (18.04 : ℚ),
    is_lts := false,
    series := "juno",
    version := some (5.0 : ℚ) },
  { codename := "Hera",
    created_date := ⟨2019, 12, 3⟩,
    distributor_id := "elementary",
    upstream_distributor_id := some "ubuntu",
    upstream_series := some "bionic",
    upstream_version := some (18.04 : ℚ),
    is_lts := false,
    series := "hera",
    version := some (5.1 : ℚ) }
]

set_option maxRecDepth 10000

/-- `strStarts` decides the list-prefix relation. -/
theorem strStarts_iff (p s : List Char) : strStarts p s = true ↔ p <+: s := by
  induction p generalizing s with
  | nil => simp [strStarts]
  | cons a p ih =>
    cases s with
    | nil => simp [strStarts]
    | cons b s =>
      simp only [strStarts, Bool.and_eq_true, decide_eq_true_eq,
        List.cons_prefix_cons, ih]

/-- `containsSeq` decides the contiguous-containment (infix) relation,
matching the semantics of the Python `in` operator on byte strings. -/
theorem containsSeq_iff (n h : List Char) : containsSeq n h = true ↔ n <:+: h := by
  induction h with
  | nil => simp [containsSeq, List.isEmpty_iff]
  | cons c t ih =>
    simp only [containsSeq, Bool.or_eq_true, strStarts_iff, ih,
      List.infix_cons_iff]

/-- A fetcher for which every fetch raises a non-timeout exception. -/
def fetchAlwaysFail : String → FetchResult := fun _ => .failure

/-- A fetcher for which every fetch raises `TimeoutException`. -/
def fetchAlwaysTimeout : String → FetchResult := fun _ => .timeout

/-- C2: a probe of an http(s) base URL whose fetch of the stable resource
raises a transport-timeout error records `True` in the cache and returns
`True` (inconclusive-pass), never `False`; no exception propagates (the
embedding is a total function into `ProbeOutcome`). -/
theorem probe_timeout_inconclusive_pass (fetch_url : String → FetchResult)
    (cache : MirrorCache) (base_url stable_resource expected_content : String)
    (hhttp : isHttpUrl (normalize_mirror_url base_url) = true)
    (hmiss : cacheLookup cache
      (normalize_mirror_url base_url, stable_resource, expected_content) = none)
    (hto : fetch_url (normalize_mirror_url base_url ++ stable_resource) =
      .timeout) :
    (is_mirror_url fetch_url cache base_url stable_resource
      expected_content).verdict = true ∧
    cacheLookup (is_mirror_url fetch_url cache base_url stable_resource
        expected_content).cache
      (normalize_mirror_url base_url, stable_resource, expected_content) =
      some true := by
  simp [is_mirror_url, hhttp, hmiss, hto, cacheLookup]

/-- Witness for C2 at a concrete input. -/
theorem probe_timeout_inconclusive_pass_witness :
    (is_mirror_url fetchAlwaysTimeout [] "http://example.com"
      "/Release.gpg" "MARK").verdict = true ∧
    cacheLookup (is_mirror_url fetchAlwaysTimeout [] "http://example.com"
        "/Release.gpg" "MARK").cache
      (normalize_mirror_url "http://example.com", "/Release.gpg", "MARK") =
      some true :=
  probe_timeout_inconclusive_pass fetchAlwaysTimeout [] "http://example.com"
    "/Release.gpg" "MARK" (by decide) rfl rfl

/-- C5: a probe of an http(s) base URL whose fetch raises any non-timeout
exception records `False` in the cache and returns `False`; the exception
does not propagate (the embedding is a total function into
`ProbeOutcome`). -/
theorem probe_failure_negative (fetch_url : String → FetchResult)
    (cache : MirrorCache) (base_url stable_resource expected_content : String)
    (hhttp : isHttpUrl (normalize_mirror_url base_url) = true)
    (hmiss : cacheLookup cache
      (normalize_mirror_url base_url, stable_resource, expected_content) = none)
    (hex : fetch_url (normalize_mirror_url base_url ++ stable_resource) =
      .failure) :
    (is_mirror_url fetch_url cache base_url stable_resource
      expected_content).verdict = false ∧
    cacheLookup (is_mirror_url fetch_url cache base_url stable_resource
        expected_content).cache
      (normalize_mirror_url base_url, stable_resource, expected_content) =
      some false := by
  simp [is_mirror_url, hhttp, hmiss, hex, cacheLookup]

/-- Witness for C5 at a concrete input. -/
theorem probe_failure_negative_witness :
    (is_mirror_url fetchAlwaysFail [] "http://example.com"
      "/Release.gpg" "MARK").verdict = false ∧
    cacheLookup (is_mirror_url fetchAlwaysFail [] "http://example.com"
        "/Release.gpg" "MARK").cache
      (normalize_mirror_url "http://example.com", "/Release.gpg", "MARK") =
      some false :=
  probe_failure_negative fetchAlwaysFail [] "http://example.com"
    "/Release.gpg" "MARK" (by decide) rfl rfl

/-- C7: a probe of an http(s) base URL whose fetch of the stable resource
succeeds returns `True` exactly when the expected marker byte sequence
occurs contiguously in the fetched response body; a successful response
without the marker yields `False`. -/
theorem probe_success_marker_iff (fetch_url : String → FetchResult)
    (cache : MirrorCache) (base_url stable_resource expected_content : String)
    (body : String)
    (hhttp : isHttpUrl (normalize_mirror_url base_url) = true)
    (hmiss : cacheLookup cache
      (normalize_mirror_url base_url, stable_resource, expected_content) = none)
    (hs : fetch_url (normalize_mirror_url base_url ++ stable_resource) =
      .success body) :
    ((is_mirror_url fetch_url cache base_url stable_resource
      expected_content).verdict = true ↔
      expected_content.data <:+: body.data) := by
  simp [is_mirror_url, hhttp, hmiss, hs, containsSeq_iff]

/-- Witness for C7 at concrete inputs: the marker-bearing body passes and
the marker-free body fails. -/
theorem probe_success_marker_iff_witness :
    ((is_mirror_url (fun _ => .success "xx MARK yy") [] "http://example.com"
      "/Release.gpg" "MARK").verdict = true ↔
      "MARK".data <:+: "xx MARK yy".data) :=
  probe_success_marker_iff (fun _ => .success "xx MARK yy") []
    "http://example.com" "/Release.gpg" "MARK" "xx MARK yy"
    (by decide) rfl rfl

/-- C10: a probe of a base URL that does not start with `http://` or
`https://` after normalization returns `False`, fetches nothing and leaves
the cache untouched. -/
theorem probe_non_http_rejected (fetch_url : String → FetchResult)
    (cache : MirrorCache) (base_url stable_resource expected_content : String)
    (h : isHttpUrl (normalize_mirror_url base_url) = false) :
    is_mirror_url fetch_url cache base_url stable_resource expected_content =
      ⟨false, cache, []⟩ := by
  simp [is_mirror_url, h]

/-- Witness for C10 at a concrete input. -/
theorem probe_non_http_rejected_witness :
    is_mirror_url fetchAlwaysTimeout [] "ftp://mirror.example.com"
      "/Release.gpg" "MARK" = ⟨false, [], []⟩ :=
  probe_non_http_rejected fetchAlwaysTimeout [] "ftp://mirror.example.com"
    "/Release.gpg" "MARK" (by decide)

/-- C6: a second call to `is_mirror_url` with the same
`(base URL, stable resource, expected content)` triple against the cache
produced by the first call performs no network fetch, returns the same
boolean as the first call, and leaves the cache (and hence the populated
entry) unchanged. -/
theorem probe_cache_hit_second_call (fetch_url : String → FetchResult)
    (cache : MirrorCache) (base_url stable_resource expected_content : String) :
    (is_mirror_url fetch_url
      (is_mirror_url fetch_url cache base_url stable_resource
        expected_content).cache
      base_url stable_resource expected_content).verdict =
      (is_mirror_url fetch_url cache base_url stable_resource
        expected_content).verdict ∧
    (is_mirror_url fetch_url
      (is_mirror_url fetch_url cache base_url stable_resource
        expected_content).cache
      base_url stable_resource expected_content).fetched = [] ∧
    (is_mirror_url fetch_url
      (is_mirror_url fetch_url cache base_url stable_resource
        expected_content).cache
      base_url stable_resource expected_content).cache =
      (is_mirror_url fetch_url cache base_url stable_resource
        expected_content).cache := by
  by_cases hh : isHttpUrl (normalize_mirror_url base_url) = true
  · rcases hl : cacheLookup cache
      (normalize_mirror_url base_url, stable_resource, expected_content)
      with _ | b
    · rcases hf : fetch_url (normalize_mirror_url base_url ++ stable_resource)
        with body | _ | _ <;>
        simp [is_mirror_url, hh, hl, hf, cacheLookup]
    · simp [is_mirror_url, hh, hl]
  · simp only [Bool.not_eq_true] at hh
    simp [is_mirror_url, hh]

/-- Instantiation of C6 at a concrete input. -/
theorem probe_cache_hit_second_call_witness :
    (is_mirror_url fetchAlwaysFail
      (is_mirror_url fetchAlwaysFail [] "http://example.com"
        "/Release.gpg" "MARK").cache
      "http://example.com" "/Release.gpg" "MARK").verdict =
      (is_mirror_url fetchAlwaysFail [] "http://example.com"
        "/Release.gpg" "MARK").verdict ∧
    (is_mirror_url fetchAlwaysFail
      (is_mirror_url fetchAlwaysFail [] "http://example.com"
        "/Release.gpg" "MARK").cache
      "http://example.com" "/Release.gpg" "MARK").fetched = [] ∧
    (is_mirror_url fetchAlwaysFail
      (is_mirror_url fetchAlwaysFail [] "http://example.com"
        "/Release.gpg" "MARK").cache
      "http://example.com" "/Release.gpg" "MARK").cache =
      (is_mirror_url fetchAlwaysFail [] "http://example.com"
        "/Release.gpg" "MARK").cache :=
  probe_cache_hit_second_call fetchAlwaysFail [] "http://example.com"
    "/Release.gpg" "MARK"

/-- C3: `is_ubuntu_mirror` returns `False` only when both the primary
keyring probe and the fallback `Release.gpg` probe (run against the cache
left by the primary probe) fail, and it returns `True` whenever either of
these probes passes. -/
theorem ubuntu_mirror_needs_both_failures (fetch_url : String → FetchResult)
    (cache : MirrorCache) (url : String) :
    ((is_ubuntu_mirror fetch_url cache url).verdict = false →
      (is_mirror_url fetch_url cache url UBUNTU_PRIMARY_RESOURCE
        UBUNTU_PRIMARY_MARKER).verdict = false ∧
      (is_mirror_url fetch_url
        (is_mirror_url fetch_url cache url UBUNTU_PRIMARY_RESOURCE
          UBUNTU_PRIMARY_MARKER).cache
        url UBUNTU_FALLBACK_RESOURCE UBUNTU_FALLBACK_MARKER).verdict =
        false) ∧
    (((is_mirror_url fetch_url cache url UBUNTU_PRIMARY_RESOURCE
        UBUNTU_PRIMARY_MARKER).verdict = true ∨
      (is_mirror_url fetch_url
        (is_mirror_url fetch_url cache url UBUNTU_PRIMARY_RESOURCE
          UBUNTU_PRIMARY_MARKER).cache
        url UBUNTU_FALLBACK_RESOURCE UBUNTU_FALLBACK_MARKER).verdict =
        true) →
      (is_ubuntu_mirror fetch_url cache url).verdict = true) := by
  by_cases hu : url = UTAH_MIRROR_URL
  · simp [is_ubuntu_mirror, hu]
  · by_cases h1 : (is_mirror_url fetch_url cache url UBUNTU_PRIMARY_RESOURCE
      UBUNTU_PRIMARY_MARKER).verdict = true
    · simp [is_ubuntu_mirror, hu, h1]
    · simp only [Bool.not_eq_true] at h1
      simp [is_ubuntu_mirror, hu, h1]

/-- Instantiation of C3 at a concrete input. -/
theorem ubuntu_mirror_needs_both_failures_witness :
    ((is_ubuntu_mirror fetchAlwaysFail [] "http://mirror.example.com/ubuntu").verdict = false →
      (is_mirror_url fetchAlwaysFail [] "http://mirror.example.com/ubuntu"
        UBUNTU_PRIMARY_RESOURCE UBUNTU_PRIMARY_MARKER).verdict = false ∧
      (is_mirror_url fetchAlwaysFail
        (is_mirror_url fetchAlwaysFail [] "http://mirror.example.com/ubuntu"
          UBUNTU_PRIMARY_RESOURCE UBUNTU_PRIMARY_MARKER).cache
        "http://mirror.example.com/ubuntu" UBUNTU_FALLBACK_RESOURCE
        UBUNTU_FALLBACK_MARKER).verdict = false) ∧
    (((is_mirror_url fetchAlwaysFail [] "http://mirror.example.com/ubuntu"
        UBUNTU_PRIMARY_RESOURCE UBUNTU_PRIMARY_MARKER).verdict = true ∨
      (is_mirror_url fetchAlwaysFail
        (is_mirror_url fetchAlwaysFail [] "http://mirror.example.com/ubuntu"
          UBUNTU_PRIMARY_RESOURCE UBUNTU_PRIMARY_MARKER).cache
        "http://mirror.example.com/ubuntu" UBUNTU_FALLBACK_RESOURCE
        UBUNTU_FALLBACK_MARKER).verdict = true) →
      (is_ubuntu_mirror fetchAlwaysFail []
        "http://mirror.example.com/ubuntu").verdict = true) :=
  ubuntu_mirror_needs_both_failures fetchAlwaysFail []
    "http://mirror.example.com/ubuntu"

/-- C4 counterexample: with a fetcher that fails every fetch, the probe
fetches of the hardcoded Utah mirror URL and of another mirror URL behave
identically, yet `is_ubuntu_mirror` declares the Utah URL available and the
other URL unavailable (`tests.py` line 106 hardcodes the Utah URL). -/
theorem ubuntu_mirror_hardcoded_utah_counterexample :
    fetchAlwaysFail (normalize_mirror_url UTAH_MIRROR_URL ++
        UBUNTU_PRIMARY_RESOURCE) =
      fetchAlwaysFail (normalize_mirror_url "http://mirror.example.com/ubuntu" ++
        UBUNTU_PRIMARY_RESOURCE) ∧
    fetchAlwaysFail (normalize_mirror_url UTAH_MIRROR_URL ++
        UBUNTU_FALLBACK_RESOURCE) =
      fetchAlwaysFail (normalize_mirror_url "http://mirror.example.com/ubuntu" ++
        UBUNTU_FALLBACK_RESOURCE) ∧
    (is_ubuntu_mirror fetchAlwaysFail [] UTAH_MIRROR_URL).verdict = true ∧
    (is_ubuntu_mirror fetchAlwaysFail []
      "http://mirror.example.com/ubuntu").verdict = false :=
  ⟨rfl, rfl, by decide, by decide⟩

/-- Two probes whose base URLs agree on http(s)-ness, whose caches miss,
and whose resource fetches coincide produce the same verdict. -/
theorem is_mirror_url_congr (fetch_url : String → FetchResult)
    (c1 c2 : MirrorCache) (u1 u2 r m : String)
    (hhttp : isHttpUrl (normalize_mirror_url u1) =
      isHttpUrl (normalize_mirror_url u2))
    (hl1 : cacheLookup c1 (normalize_mirror_url u1, r, m) = none)
    (hl2 : cacheLookup c2 (normalize_mirror_url u2, r, m) = none)
    (hf : fetch_url (normalize_mirror_url u1 ++ r) =
      fetch_url (normalize_mirror_url u2 ++ r)) :
    (is_mirror_url fetch_url c1 u1 r m).verdict =
      (is_mirror_url fetch_url c2 u2 r m).verdict := by
  by_cases hh : isHttpUrl (normalize_mirror_url u1) = true
  · have hh2 : isHttpUrl (normalize_mirror_url u2) = true := hhttp ▸ hh
    rcases hres : fetch_url (normalize_mirror_url u2 ++ r) with body | _ | _ <;>
      simp [is_mirror_url, hh, hh2, hl1, hl2, hf, hres]
  · simp only [Bool.not_eq_true] at hh
    have hh2 : isHttpUrl (normalize_mirror_url u2) = false := hhttp ▸ hh
    simp [is_mirror_url, hh, hh2]

/-- A probe started from an empty cache leaves no cache entry for a
different stable resource. -/
theorem is_mirror_url_fresh_cache_other_resource
    (fetch_url : String → FetchResult) (u r m r' m' : String) (hr : r ≠ r') :
    cacheLookup (is_mirror_url fetch_url [] u r m).cache
      (normalize_mirror_url u, r', m') = none := by
  by_cases hh : isHttpUrl (normalize_mirror_url u) = true
  · rcases hres : fetch_url (normalize_mirror_url u ++ r) with body | _ | _ <;>
      simp [is_mirror_url, hh, hres, cacheLookup, Prod.ext_iff, hr]
  · simp only [Bool.not_eq_true] at hh
    simp [is_mirror_url, hh, cacheLookup]

/-- C4 as amended: away from the hardcoded exception URL
`http://ubuntu.cs.utah.edu/ubuntu`, the verdict of `is_ubuntu_mirror` on a
fresh pass is determined solely by the outcomes of the generic probes: any
two non-hardcoded candidate URLs that agree on http(s)-ness after
normalization and whose fetches of the two probe resources behave
identically receive the same verdict. -/
theorem ubuntu_mirror_generic_verdict (fetch_url : String → FetchResult)
    (u1 u2 : String)
    (h1 : u1 ≠ UTAH_MIRROR_URL) (h2 : u2 ≠ UTAH_MIRROR_URL)
    (hhttp : isHttpUrl (normalize_mirror_url u1) =
      isHttpUrl (normalize_mirror_url u2))
    (hf1 : fetch_url (normalize_mirror_url u1 ++ UBUNTU_PRIMARY_RESOURCE) =
      fetch_url (normalize_mirror_url u2 ++ UBUNTU_PRIMARY_RESOURCE))
    (hf2 : fetch_url (normalize_mirror_url u1 ++ UBUNTU_FALLBACK_RESOURCE) =
      fetch_url (normalize_mirror_url u2 ++ UBUNTU_FALLBACK_RESOURCE)) :
    (is_ubuntu_mirror fetch_url [] u1).verdict =
      (is_ubuntu_mirror fetch_url [] u2).verdict := by
  have e1 : (is_mirror_url fetch_url [] u1 UBUNTU_PRIMARY_RESOURCE
      UBUNTU_PRIMARY_MARKER).verdict =
      (is_mirror_url fetch_url [] u2 UBUNTU_PRIMARY_RESOURCE
        UBUNTU_PRIMARY_MARKER).verdict :=
    is_mirror_url_congr fetch_url [] [] u1 u2 _ _ hhttp rfl rfl hf1
  have e2 : (is_mirror_url fetch_url
      (is_mirror_url fetch_url [] u1 UBUNTU_PRIMARY_RESOURCE
        UBUNTU_PRIMARY_MARKER).cache u1 UBUNTU_FALLBACK_RESOURCE
      UBUNTU_FALLBACK_MARKER).verdict =
      (is_mirror_url fetch_url
        (is_mirror_url fetch_url [] u2 UBUNTU_PRIMARY_RESOURCE
          UBUNTU_PRIMARY_MARKER).cache u2 UBUNTU_FALLBACK_RESOURCE
        UBUNTU_FALLBACK_MARKER).verdict :=
    is_mirror_url_congr fetch_url _ _ u1 u2 _ _ hhttp
      (is_mirror_url_fresh_cache_other_resource fetch_url u1 _ _ _ _
        (by decide))
      (is_mirror_url_fresh_cache_other_resource fetch_url u2 _ _ _ _
        (by decide))
      hf2
  by_cases hv : (is_mirror_url fetch_url [] u1 UBUNTU_PRIMARY_RESOURCE
      UBUNTU_PRIMARY_MARKER).verdict = true
  · simp [is_ubuntu_mirror, h1, h2, hv, e1 ▸ hv]
  · simp only [Bool.not_eq_true] at hv
    have hv2 := e1 ▸ hv
    simp [is_ubuntu_mirror, h1, h2, hv, hv2, e2]

/-- Witness for the amended C4 at concrete inputs. -/
theorem ubuntu_mirror_generic_verdict_witness :
    (is_ubuntu_mirror fetchAlwaysFail [] "http://a.example.com/ubuntu").verdict =
      (is_ubuntu_mirror fetchAlwaysFail [] "http://b.example.com/ubuntu").verdict :=
  ubuntu_mirror_generic_verdict fetchAlwaysFail "http://a.example.com/ubuntu"
    "http://b.example.com/ubuntu" (by decide) (by decide) (by decide) rfl rfl

/-- C1: the elementary backend's public mirror operations are the Ubuntu
backend's: `discover_mirrors` and `generate_sources_list` compute exactly
the same results on every invocation, and `OLD_RELEASES_URL` and
`SECURITY_URL` equal the corresponding Ubuntu constants. -/
theorem elementary_alias_equivalence :
    (∀ fetch_url : String → FetchResult,
      elementary.discover_mirrors fetch_url =
        ubuntu.discover_mirrors fetch_url) ∧
    (∀ mirror_url series : String,
      elementary.generate_sources_list mirror_url series =
        ubuntu.generate_sources_list mirror_url series) ∧
    elementary.OLD_RELEASES_URL = ubuntu.OLD_RELEASES_URL ∧
    elementary.SECURITY_URL = ubuntu.SECURITY_URL :=
  ⟨fun _ => rfl, fun _ _ => rfl, rfl, rfl⟩

/-- C8: in the elementary release catalog every record has distributor id
`elementary`, the series values are pairwise distinct, and hence no two
records share a `(distributor_id, series)` pair. -/
theorem elementary_catalog_series_unique :
    (∀ r ∈ elementary.KNOWN_RELEASES, r.distributor_id = "elementary") ∧
    elementary.KNOWN_RELEASES.Pairwise (fun a b => a.series ≠ b.series) ∧
    elementary.KNOWN_RELEASES.Pairwise
      (fun a b =>
        (a.distributor_id, a.series) ≠ (b.distributor_id, b.series)) :=
  ⟨by decide, by decide, by decide⟩

/-- C9: every elementary catalog record carries the complete upstream
back-reference (`upstream_distributor_id = "ubuntu"`, an upstream series
and an upstream version), while the aliased `discover_mirrors` coincides
with the Ubuntu one — which is defined without reference to the elementary
catalog — on every invocation. -/
theorem elementary_catalog_upstream_complete :
    (∀ r ∈ elementary.KNOWN_RELEASES,
      r.upstream_distributor_id = some "ubuntu" ∧
      r.upstream_series.isSome = true ∧
      r.upstream_version.isSome = true) ∧
    (∀ fetch_url : String → FetchResult,
      elementary.discover_mirrors fetch_url =
        ubuntu.discover_mirrors fetch_url) :=
  ⟨by decide, fun _ => rfl⟩
